import Mathlib

/-!
Verification development for the ClearStream AI client (app-sora).

The repository contains three logic-bearing pieces:
* a frame extractor `extractFirstFrame`, present in two variants
  (a bare variant in `videoUtils` without guards and a guarded variant
  with an environment check, a 15 s timeout and a structured `cleanup`);
* a generation client `generateCleanVideo` that submits a frame to the
  Veo API and drives a poll loop on the returned operation;
* the `App` session controller with `handleReset` and `handleProcess`.

JavaScript numbers are modelled as exact rationals (`ℚ`); browser events
(`loadeddata`, `seeked`, `error`, the `setTimeout` callback) are modelled
as an explicit event trace folded over a step function that mirrors the
registered handlers.  Browser resources (the object URL, the detached
video element, the pending timer) are tracked as boolean fields so that
acquisition and release can be stated.
-/

/-! ### Shared string helpers (JS `String.prototype.includes` / `split`) -/

/-- Boolean test for `pat` occurring as a contiguous sublist of `l`,
mirroring JS `l.includes(pat)` on strings once both are viewed as
character lists. -/
def containsSub (pat : List Char) : List Char → Bool
  | [] => pat.isEmpty
  | a :: as => pat.isPrefixOf (a :: as) || containsSub pat as

/-- JS `s.includes(pat)`. -/
def strIncludes (s pat : String) : Bool :=
  containsSub pat.toList s.toList

/-- Split a character list at every occurrence of `c`, as JS
`String.prototype.split` with a single-character separator. -/
def splitChar (c : Char) : List Char → List (List Char)
  | [] => [[]]
  | a :: as =>
    let r := splitChar c as
    if a = c then [] :: r
    else
      match r with
      | [] => [[a]]
      | g :: gs => (a :: g) :: gs

/-- JS `dataUrl.split(',')[1]`: the payload of a data URL after the
format-prefix header.  A missing second segment (JS `undefined`) is
modelled as the empty string. -/
def base64Of (dataUrl : String) : String :=
  String.mk (((splitChar ',' dataUrl.toList).drop 1).headD [])

/-! ### Frame extractor: data and the downscale computation -/

/-- `const maxDimension = 1024` in both variants of `extractFirstFrame`. -/
def maxDimension : ℕ := 1024

/-- The dimension computation of `onseeked`:
`width/height` are left unchanged unless one exceeds `maxDimension`, in
which case `scale = maxDimension / Math.max(width, height)` and both are
replaced by `Math.floor(dim * scale)`. -/
def resizeDims (width height : ℕ) : ℕ × ℕ :=
  if maxDimension < width ∨ maxDimension < height then
    let scale : ℚ := (maxDimension : ℚ) / (max width height : ℕ)
    (⌊(width : ℚ) * scale⌋₊, ⌊(height : ℚ) * scale⌋₊)
  else (width, height)

/-- Result shape of `extractFirstFrame`. -/
structure FrameResult where
  base64 : String
  mimeType : String
  width : ℕ
  height : ℕ
deriving DecidableEq

/-- Settled value of the extraction promise. -/
inductive ExtractOutcome where
  | ok (r : FrameResult)
  | error (msg : String)
deriving DecidableEq

/-- `setTimeout(..., 15000)` delay of the guarded variant. -/
def timeoutDelayMs : ℕ := 15000

def nonBrowserMsg : String := "O processamento de vídeo requer um ambiente de navegador."
def timeoutMsg : String := "Tempo limite excedido: Não foi possível extrair o frame do vídeo."
def createUrlFailMsg : String := "Falha ao carregar o arquivo de vídeo."
def invalidDimsMsg : String := "Dimensões de vídeo inválidas."
def noCtxMsg : String := "Não foi possível obter o contexto do canvas."
def decodeErrMsg : String := "Erro ao decodificar o vídeo. O arquivo pode estar corrompido ou formato não suportado."
/-- The `DOMException` text thrown by `canvas.toDataURL` when encoding
fails; its exact wording is browser-supplied. -/
def encodeThrowMsg : String := "toDataURL failed"
/-- A non-browser run of the bare variant crashes on `document`; the
promise rejects with the runtime error. -/
def bareNonBrowserMsg : String := "ReferenceError: document is not defined"
/-- A failing `URL.createObjectURL` in the bare variant rejects the
promise with the thrown exception. -/
def bareCreateUrlFailMsg : String := "createObjectURL failed"
def bareNoCtxMsg : String := "Could not get canvas context"
def bareDecodeErrMsg : String := "Error loading video file"

/-- `onloadeddata` seek-target computation of the guarded variant:
a non-finite `video.duration` (modelled as `none`) is replaced by 10,
then the target is `Math.min(0.1, duration > 0 ? duration / 2 : 0)`. -/
def targetTime (durationRaw : Option ℚ) : ℚ :=
  let duration := durationRaw.getD 10
  min (1 / 10) (if 0 < duration then duration / 2 else 0)

/-- Environment events delivered to the handlers registered by
`extractFirstFrame`.  The `seeked` event carries what the handler reads
from the environment: the native dimensions, whether
`canvas.getContext` succeeds, whether `canvas.toDataURL` returns
normally, and the data URL it produces. -/
inductive MediaEvent where
  | loadeddata (duration : Option ℚ)
  | seeked (w h : ℕ) (ctxOk : Bool) (encodeOk : Bool) (dataUrl : String)
  | errored
  | timeoutFired
deriving DecidableEq

/-- State of one run of the guarded `extractFirstFrame`:
which temporary handles are still held, the registered-handler flag
(`cleanup` nulls all three handlers at once), the current seek target,
the last `toDataURL` call (mime type and quality), and the settled
promise value. -/
structure ExtState where
  timerActive : Bool
  urlLive : Bool
  videoAttached : Bool
  handlersActive : Bool
  seekTarget : Option ℚ
  lastEncode : Option (String × ℚ)
  outcome : Option ExtractOutcome
deriving DecidableEq

/-- The `cleanup` closure of the guarded variant: `clearTimeout`,
`URL.revokeObjectURL`, null the three handlers, `video.remove()`. -/
def cleanup (s : ExtState) : ExtState :=
  { s with timerActive := false, urlLive := false,
           handlersActive := false, videoAttached := false }

/-- State after the synchronous prefix of the guarded variant:
the environment check, the `setTimeout` arming, and the
`URL.createObjectURL` call inside `try`. -/
def extractInit (browserOk createUrlOk : Bool) : ExtState :=
  if !browserOk then
    { timerActive := false, urlLive := false, videoAttached := false,
      handlersActive := false, seekTarget := none, lastEncode := none,
      outcome := some (.error nonBrowserMsg) }
  else if !createUrlOk then
    { timerActive := false, urlLive := false, videoAttached := false,
      handlersActive := false, seekTarget := none, lastEncode := none,
      outcome := some (.error createUrlFailMsg) }
  else
    { timerActive := true, urlLive := true, videoAttached := true,
      handlersActive := true, seekTarget := none, lastEncode := none,
      outcome := none }

/-- One event delivered to the handlers of the guarded variant. -/
def extractStep (s : ExtState) (e : MediaEvent) : ExtState :=
  match e with
  | .loadeddata d =>
      if s.handlersActive then { s with seekTarget := some (targetTime d) } else s
  | .seeked w h ctxOk encodeOk dataUrl =>
      if s.handlersActive then
        if w = 0 ∨ h = 0 then
          { cleanup s with outcome := some (.error invalidDimsMsg) }
        else
          let dims := resizeDims w h
          if ctxOk then
            if encodeOk then
              { cleanup s with
                lastEncode := some ("image/jpeg", 0.85),
                outcome := some (.ok { base64 := base64Of dataUrl,
                                       mimeType := "image/jpeg",
                                       width := dims.1, height := dims.2 }) }
            else
              { cleanup s with lastEncode := some ("image/jpeg", 0.85),
                               outcome := some (.error encodeThrowMsg) }
          else
            { cleanup s with outcome := some (.error noCtxMsg) }
      else s
  | .errored =>
      if s.handlersActive then { cleanup s with outcome := some (.error decodeErrMsg) }
      else s
  | .timeoutFired =>
      if s.timerActive then { cleanup s with outcome := some (.error timeoutMsg) }
      else s

/-- A run of the guarded `extractFirstFrame` on an event trace. -/
def runExtract (browserOk createUrlOk : Bool) (events : List MediaEvent) : ExtState :=
  events.foldl extractStep (extractInit browserOk createUrlOk)

/-- State of one run of the bare `extractFirstFrame` variant
(no timeout, no environment check, no dimension check, no handler
teardown); `outcome` settles at most once, as a promise does. -/
structure BareState where
  urlLive : Bool
  lastEncode : Option (String × ℚ)
  outcome : Option ExtractOutcome
deriving DecidableEq

/-- Synchronous prefix of the bare variant: `document.createElement`
and `URL.createObjectURL` run unguarded, so a failure of either rejects
the promise with the thrown runtime error. -/
def bareInit (browserOk createUrlOk : Bool) : BareState :=
  if !browserOk then
    { urlLive := false, lastEncode := none, outcome := some (.error bareNonBrowserMsg) }
  else if !createUrlOk then
    { urlLive := false, lastEncode := none, outcome := some (.error bareCreateUrlFailMsg) }
  else
    { urlLive := true, lastEncode := none, outcome := none }

/-- One event delivered to the handlers of the bare variant. -/
def bareStep (s : BareState) (e : MediaEvent) : BareState :=
  match e with
  | .loadeddata _ => s
  | .seeked w h ctxOk encodeOk dataUrl =>
      if s.outcome.isNone then
        let dims := resizeDims w h
        if ctxOk then
          if encodeOk then
            { urlLive := false,
              lastEncode := some ("image/jpeg", 0.85),
              outcome := some (.ok { base64 := base64Of dataUrl,
                                     mimeType := "image/jpeg",
                                     width := dims.1, height := dims.2 }) }
          else
            -- `toDataURL` throwing escapes the handler uncaught: the
            -- promise never settles and the URL is never revoked.
            { s with lastEncode := some ("image/jpeg", 0.85) }
        else
          { urlLive := false, lastEncode := s.lastEncode,
            outcome := some (.error bareNoCtxMsg) }
      else s
  | .errored =>
      if s.outcome.isNone then
        { s with urlLive := false, outcome := some (.error bareDecodeErrMsg) }
      else s
  | .timeoutFired => s

/-- A run of the bare `extractFirstFrame` on an event trace. -/
def runBare (browserOk createUrlOk : Bool) (events : List MediaEvent) : BareState :=
  events.foldl bareStep (bareInit browserOk createUrlOk)

/-- All temporary handles of the guarded variant are released. -/
def allReleased (s : ExtState) : Prop :=
  s.timerActive = false ∧ s.urlLive = false ∧ s.videoAttached = false

/-! ### Generation client (`generateCleanVideo` in `geminiService`) -/

/-- The slice of the Veo `Operation` object the client reads:
`name`, `done`, `response?.generatedVideos?.[0]?.video?.uri` (flattened)
and `error?.message`. -/
structure Operation where
  name : Option String
  done : Bool
  videoUri : Option String
  errorMsg : Option String
deriving DecidableEq

/-- The request record passed to `ai.models.generateVideos`. -/
structure GenerateVideosParams where
  model : String
  prompt : String
  imageBytes : String
  mimeType : String
  numberOfVideos : ℕ
  resolution : String
  aspectRatio : String
deriving DecidableEq

/-- Response of `fetch(downloadUrl)` as the client reads it. -/
structure FetchResult where
  ok : Bool
  status : ℕ
  statusText : String
  blobUrl : String
deriving DecidableEq

/-- External world of one `generateCleanVideo` call: the configured
credential, the submission response, the poll responses (indexed by the
poll-call counter and by the name the client passes), and the download
response (indexed by the fetched URL).  `.error` models a rejected
provider call carrying its message. -/
structure GenEnv where
  apiKey : Option String
  submit : GenerateVideosParams → Except String Operation
  poll : ℕ → String → Except String Operation
  fetchAt : String → FetchResult

def apiKeyMissingMsg : String :=
  "Chave de API não detectada no ambiente. O aplicativo requer uma API Key configurada internamente."
def noOperationIdMsg : String := "A API não retornou um ID de operação válido."
def operationLostMsg : String :=
  "A operação de vídeo foi perdida pelo servidor (404). Tente novamente."
def noUriMsg : String := "Nenhum URI de vídeo retornado."
def unknownErrorMsg : String := "Erro desconhecido ao comunicar com a API Gemini."
def modelNotFoundMsg : String :=
  "O modelo de vídeo ou a operação não foi encontrada. Verifique se sua conta tem acesso ao modelo Veo."
def quotaMsg : String :=
  "Limite de requisições excedido (Quota). Tente novamente em alguns instantes."

/-- The prompt-engineering template literal of `generateCleanVideo`. -/
def fullPrompt (promptDescription : String) : String :=
  "Cinematic, high quality video. " ++ promptDescription ++
    ". \n  Clear visual, no watermarks, no overlay text, clean composition. Photorealistic. Keep the original scene structure but remove overlay elements."

/-- The argument record of the `ai.models.generateVideos` call. -/
def mkSubmission (imageBase64 imageMimeType promptDescription aspectRatio : String) :
    GenerateVideosParams :=
  { model := "veo-3.1-fast-generate-preview"
    prompt := fullPrompt promptDescription
    imageBytes := imageBase64
    mimeType := imageMimeType
    numberOfVideos := 1
    resolution := "720p"
    aspectRatio := aspectRatio }

/-- Result of the poll loop: the final operation snapshot, a thrown
error, or fuel exhaustion (the loop is still polling — the source loop
has no deadline of its own). -/
inductive LoopResult where
  | finished (op : Operation)
  | failed (msg : String)
  | fuelOut
deriving DecidableEq

/-- The `while (!operation.done)` poll loop.  Besides the result it
returns the list of `name` arguments passed to
`ai.operations.getVideosOperation`, one entry per poll call issued. -/
def pollLoop (poll : ℕ → String → Except String Operation) (operationName : String) :
    ℕ → Operation → ℕ → LoopResult × List String
  | fuel, operation, i =>
    if operation.done then (.finished operation, [])
    else
      match fuel with
      | 0 => (.fuelOut, [])
      | f + 1 =>
        match poll i operationName with
        | .ok next =>
          let rest := pollLoop poll operationName f next (i + 1)
          (rest.1, operationName :: rest.2)
        | .error e =>
          if strIncludes e "404" then (.failed operationLostMsg, [operationName])
          else (.failed e, [operationName])

/-- Outcome of a `generateCleanVideo` call: a resolved object URL,
a rejection message, or still pending (poll fuel exhausted). -/
inductive GenOutcome where
  | ok (url : String)
  | error (msg : String)
  | pending
deriving DecidableEq

/-- The body of the `try` block of `generateCleanVideo`: submission,
operation-name capture, poll loop, result extraction and download.
Also returns the poll-call name trace. -/
def rawGenerate (env : GenEnv) (apiKey : String)
    (imageBase64 imageMimeType promptDescription aspectRatio : String)
    (fuel : ℕ) : GenOutcome × List String :=
  match env.submit (mkSubmission imageBase64 imageMimeType promptDescription aspectRatio) with
  | .error e => (.error e, [])
  | .ok operation =>
    match operation.name with
    | none => (.error noOperationIdMsg, [])
    | some operationName =>
      match pollLoop env.poll operationName fuel operation 0 with
      | (.fuelOut, tr) => (.pending, tr)
      | (.failed e, tr) => (.error e, tr)
      | (.finished fin, tr) =>
        match fin.videoUri with
        | none =>
          let errorMsg :=
            match fin.errorMsg with
            | some m => if m = "" then noUriMsg else m
            | none => noUriMsg
          (.error ("Falha na geração: " ++ errorMsg), tr)
        | some videoUri =>
          let f := env.fetchAt (videoUri ++ "&key=" ++ apiKey)
          if f.ok then (.ok f.blobUrl, tr)
          else (.error ("Falha ao baixar vídeo gerado: " ++ toString f.status ++ " " ++ f.statusText), tr)

/-- The error translation of the `catch` block: `404`+`entity` messages map
to the missing-model message, then `429` messages map to the quota
message, everything else passes through. -/
def translateError (userMessage : String) : String :=
  if strIncludes userMessage "404" && strIncludes userMessage "entity" then modelNotFoundMsg
  else if strIncludes userMessage "429" then quotaMsg
  else userMessage

/-- `generateCleanVideo`: the credential check (outside the `try`),
then the `try` body with the `catch` translation applied to any raised
error (an empty message falls back to the generic one, as
`error.message || ...` does). -/
def generateCleanVideo (env : GenEnv)
    (imageBase64 imageMimeType promptDescription aspectRatio : String)
    (fuel : ℕ) : GenOutcome × List String :=
  match env.apiKey with
  | none => (.error apiKeyMissingMsg, [])
  | some apiKey =>
    let r := rawGenerate env apiKey imageBase64 imageMimeType promptDescription aspectRatio fuel
    match r.1 with
    | .error e => (.error (translateError (if e = "" then unknownErrorMsg else e)), r.2)
    | out => (out, r.2)

/-! ### Session controller (`App.tsx`) -/

/-- `ProcessingState.status` values. -/
inductive Status where
  | idle
  | analyzing
  | generating
  | completed
  | error
deriving DecidableEq

/-- The `ProcessingState` interface of `types.ts`. -/
structure ProcessingState where
  status : Status
  progress : Option ℕ
  message : Option String
  error : Option String
deriving DecidableEq

/-- The `App` component state, with one ghost field:
`liveObjectUrls` is the browser-side set of object URLs created by this
session and not yet revoked.  Files and object URLs are identified by
numeric handles. -/
structure AppState where
  videoFile : Option ℕ
  videoPreviewUrl : Option ℕ
  prompt : String
  processingState : ProcessingState
  generatedVideoUrl : Option ℕ
  extractedFrame : Option FrameResult
  fileInputValue : String
  liveObjectUrls : List ℕ
deriving DecidableEq

/-- `handleReset`: null out the file, both URLs and the frame, clear
the prompt and the file input, set status idle.  It contains no
`URL.revokeObjectURL` call, so `liveObjectUrls` is untouched. -/
def handleReset (s : AppState) : AppState :=
  { s with videoFile := none
           videoPreviewUrl := none
           generatedVideoUrl := none
           extractedFrame := none
           prompt := ""
           processingState := { status := .idle, progress := none,
                                message := none, error := none }
           fileInputValue := "" }

/-- The aspect-ratio pick of `handleProcess`:
`width >= height` picks "16:9", otherwise "9:16". -/
def ratioFor (width height : ℕ) : String :=
  if width ≥ height then "16:9" else "9:16"

/-! ### Claim-level predicates and concrete oracle instances -/

/-- Run invariant of the guarded variant: either the promise is
unsettled and every handle is still held with the handlers registered,
or it has settled, `cleanup` has run (every handle released, handlers
nulled), and a success carries the JPEG mime type with the recorded
quality-0.85 encode call. -/
def ExtInv (s : ExtState) : Prop :=
  (s.outcome = none ∧ s.timerActive = true ∧ s.urlLive = true ∧
    s.videoAttached = true ∧ s.handlersActive = true) ∨
  ((∃ o, s.outcome = some o) ∧ s.timerActive = false ∧ s.urlLive = false ∧
    s.videoAttached = false ∧ s.handlersActive = false ∧
    ∀ r, s.outcome = some (.ok r) →
      r.mimeType = "image/jpeg" ∧ s.lastEncode = some ("image/jpeg", 0.85))

/-- Run invariant of the bare variant: any success carries the JPEG
mime type and the recorded quality-0.85 encode call. -/
def BareInv (s : BareState) : Prop :=
  ∀ r, s.outcome = some (.ok r) →
    r.mimeType = "image/jpeg" ∧ s.lastEncode = some ("image/jpeg", 0.85)

/-- The equivalence stated by C9: the bare and the guarded variant of
`extractFirstFrame` settle identically on every input behaviour. -/
def extractVariantsEquivalent : Prop :=
  ∀ (b c : Bool) (events : List MediaEvent),
    (runBare b c events).outcome = (runExtract b c events).outcome

/-- What C4 claims of reset: besides returning to idle and dropping the
frame, the generated video and the description, it releases (revokes)
the object URLs held at reset time. -/
def resetReleasesHeldUrls : Prop :=
  ∀ s : AppState,
    (handleReset s).processingState.status = .idle ∧
    (handleReset s).extractedFrame = none ∧
    (handleReset s).generatedVideoUrl = none ∧
    (handleReset s).prompt = "" ∧
    (∀ u, s.videoPreviewUrl = some u → u ∉ (handleReset s).liveObjectUrls) ∧
    (∀ u, s.generatedVideoUrl = some u → u ∉ (handleReset s).liveObjectUrls)

/-- A completed session holding a preview URL (handle 0) and a
generated-video URL (handle 1), both unrevoked. -/
def resetCounterState : AppState :=
  { videoFile := some 0
    videoPreviewUrl := some 0
    prompt := "a red car"
    processingState := { status := .completed, progress := none,
                         message := none, error := none }
    generatedVideoUrl := some 1
    extractedFrame := none
    fileInputValue := "f"
    liveObjectUrls := [0, 1] }

/-- A pending operation and its completed snapshot, used as concrete
poll-oracle values. -/
def opW : Operation :=
  { name := some "op-1", done := false, videoUri := none, errorMsg := none }

def opDone : Operation :=
  { name := some "op-1", done := true, videoUri := some "http://v", errorMsg := none }

def envW : GenEnv :=
  { apiKey := some "k"
    submit := fun _ => .ok opW
    poll := fun _ _ => .ok opDone
    fetchAt := fun u => { ok := true, status := 200, statusText := "OK", blobUrl := "blob:" ++ u } }

def poll404 : ℕ → String → Except String Operation := fun _ _ => .error "HTTP 404"

/-- What C7 claims of the error translation: every 404-class message
maps to the missing-model message, every other 429 message to the quota
message, everything else is unchanged. -/
def translationAsClaimed : Prop :=
  ∀ msg : String,
    (strIncludes msg "404" = true → translateError msg = modelNotFoundMsg) ∧
    (strIncludes msg "404" = false → strIncludes msg "429" = true →
      translateError msg = quotaMsg) ∧
    (strIncludes msg "404" = false → strIncludes msg "429" = false →
      translateError msg = msg)

def envErr : GenEnv :=
  { apiKey := some "k"
    submit := fun _ => .error "boom 429"
    poll := fun _ _ => .ok opDone
    fetchAt := fun u => { ok := true, status := 200, statusText := "OK", blobUrl := u } }

/-! ### Theorems -/

theorem resizeDims_of_big {w h : ℕ} (hbig : maxDimension < w ∨ maxDimension < h) :
    resizeDims w h = (maxDimension * w / max w h, maxDimension * h / max w h) := by
  have key : ∀ d : ℕ, ⌊(d : ℚ) * ((maxDimension : ℚ) / ((max w h : ℕ) : ℚ))⌋₊
      = maxDimension * d / max w h := by
    intro d
    have hcast : (d : ℚ) * ((maxDimension : ℚ) / ((max w h : ℕ) : ℚ))
        = ((maxDimension * d : ℕ) : ℚ) / ((max w h : ℕ) : ℚ) := by
      push_cast; ring
    rw [hcast, Nat.floor_div_eq_div]
  simp only [resizeDims, if_pos hbig]
  exact Prod.ext (key w) (key h)

theorem resizeDims_of_small {w h : ℕ} (hw : w ≤ maxDimension) (hh : h ≤ maxDimension) :
    resizeDims w h = (w, h) := by
  have hno : ¬ (maxDimension < w ∨ maxDimension < h) := by push_neg; exact ⟨hw, hh⟩
  simp [resizeDims, hno]

theorem resize_cross_bound (w h : ℕ) (hw : 0 < w) :
    (maxDimension * w / max w h) * h < (maxDimension * h / max w h) * w + max w h := by
  set m := max w h with hm_def
  have hm : 0 < m := lt_of_lt_of_le hw (le_max_left _ _)
  set q1 := maxDimension * w / m with hq1
  set q2 := maxDimension * h / m with hq2
  have h1 : q1 * m ≤ maxDimension * w := Nat.div_mul_le_self _ _
  have h2 : maxDimension * h < q2 * m + m := Nat.lt_div_mul_add hm
  have h3 : w ≤ m := le_max_left w h
  have key : (q1 * h) * m < (q2 * w + m) * m := by
    calc (q1 * h) * m = (q1 * m) * h := by ring
      _ ≤ (maxDimension * w) * h := Nat.mul_le_mul h1 (le_refl h)
      _ = (maxDimension * h) * w := by ring
      _ < (q2 * m + m) * w := by
          exact Nat.mul_lt_mul_of_lt_of_le h2 (le_refl w) hw
      _ = (q2 * w) * m + m * w := by ring
      _ ≤ (q2 * w) * m + m * m := by
          have hmw : m * w ≤ m * m := Nat.mul_le_mul (le_refl m) h3
          omega
      _ = (q2 * w + m) * m := by ring
  exact lt_of_mul_lt_mul_right key (Nat.zero_le m)

theorem scaled_le_max {d m : ℕ} (hd : d ≤ m) : maxDimension * d / m ≤ maxDimension := by
  have hmul : maxDimension * d ≤ m * maxDimension := by
    calc maxDimension * d ≤ maxDimension * m := Nat.mul_le_mul le_rfl hd
      _ = m * maxDimension := Nat.mul_comm _ _
  exact Nat.div_le_of_le_mul hmul

/-- C1 main -/
theorem extract_dims_spec (w h : ℕ) (hw : 0 < w) (hh : 0 < h) :
    (maxDimension < w ∨ maxDimension < h →
      resizeDims w h = (maxDimension * w / max w h, maxDimension * h / max w h) ∧
      max (resizeDims w h).1 (resizeDims w h).2 = maxDimension ∧
      (resizeDims w h).1 ≤ maxDimension ∧
      (resizeDims w h).2 ≤ maxDimension ∧
      (resizeDims w h).1 * h < (resizeDims w h).2 * w + max w h ∧
      (resizeDims w h).2 * w < (resizeDims w h).1 * h + max w h) ∧
    (w ≤ maxDimension → h ≤ maxDimension → resizeDims w h = (w, h)) := by
  constructor
  · intro hbig
    have heq := resizeDims_of_big hbig
    have hle1 : (resizeDims w h).1 ≤ maxDimension := by
      rw [heq]; exact scaled_le_max (le_max_left w h)
    have hle2 : (resizeDims w h).2 ≤ maxDimension := by
      rw [heq]; exact scaled_le_max (le_max_right w h)
    have hmax : max (resizeDims w h).1 (resizeDims w h).2 = maxDimension := by
      rcases le_total h w with hle | hle
      · have hmw : max w h = w := max_eq_left hle
        have h1 : (resizeDims w h).1 = maxDimension := by
          rw [heq]; simp only [hmw]; exact Nat.mul_div_cancel _ hw
        rw [max_eq_left (h1 ▸ hle2), h1]
      · have hmh : max w h = h := max_eq_right hle
        have h2 : (resizeDims w h).2 = maxDimension := by
          rw [heq]; simp only [hmh]; exact Nat.mul_div_cancel _ hh
        rw [max_eq_right (h2 ▸ hle1), h2]
    have hcross1 : (resizeDims w h).1 * h < (resizeDims w h).2 * w + max w h := by
      rw [heq]; exact resize_cross_bound w h hw
    have hcross2 : (resizeDims w h).2 * w < (resizeDims w h).1 * h + max w h := by
      rw [heq]
      have := resize_cross_bound h w hh
      rwa [max_comm h w] at this
    exact ⟨heq, hmax, hle1, hle2, hcross1, hcross2⟩
  · intro h1 h2
    exact resizeDims_of_small h1 h2

/-- C1 witness -/
theorem extract_dims_spec_witness :
    (1024 : ℕ) < 4000 ∧ resizeDims 4000 2000 = (1024, 512) ∧
    max (resizeDims 4000 2000).1 (resizeDims 4000 2000).2 = maxDimension := by
  have h := (extract_dims_spec 4000 2000 (by decide) (by decide)).1 (Or.inl (by decide))
  exact ⟨by decide, h.1.trans (by decide), h.2.1⟩

/-- C6 -/
theorem seek_target_spec (d : ℚ) (s : ExtState) (hd : 0 ≤ d) (hs : s.handlersActive = true) :
    (extractStep s (.loadeddata (some d))).seekTarget = some (min (1 / 10) (d / 2)) ∧
    (1 / 5 ≤ d → (extractStep s (.loadeddata (some d))).seekTarget = some (1 / 10)) ∧
    (d < 1 / 5 → (extractStep s (.loadeddata (some d))).seekTarget = some (d / 2)) := by
  have hmain : targetTime (some d) = min (1 / 10) (d / 2) := by
    rcases lt_or_eq_of_le hd with hpos | hzero
    · simp [targetTime, hpos]
    · rw [← hzero]
      norm_num [targetTime]
  have hstep : (extractStep s (.loadeddata (some d))).seekTarget
      = some (min (1 / 10) (d / 2)) := by
    simp [extractStep, hs, hmain]
  refine ⟨hstep, ?_, ?_⟩
  · intro hge
    rw [hstep, min_eq_left (by linarith : (1 / 10 : ℚ) ≤ d / 2)]
  · intro hlt
    rw [hstep, min_eq_right (by linarith : (d / 2 : ℚ) ≤ 1 / 10)]

/-- C6 witness -/
theorem seek_target_spec_witness :
    (extractStep (extractInit true true) (.loadeddata (some (1 / 2)))).seekTarget
      = some (1 / 10) := by
  have hs : (extractInit true true).handlersActive = true := rfl
  exact (seek_target_spec (1 / 2) (extractInit true true) (by norm_num) hs).2.1 (by norm_num)

theorem extInv_init (b c : Bool) : ExtInv (extractInit b c) := by
  cases b <;> cases c <;> simp [ExtInv, extractInit]

theorem extInv_step (s : ExtState) (e : MediaEvent) (hs : ExtInv s) :
    ExtInv (extractStep s e) := by
  rcases hs with ⟨ho, ht, hu, hv, hh⟩ | ⟨⟨o, ho⟩, ht, hu, hv, hh, hok⟩
  · cases e with
    | loadeddata d =>
        left
        simp [extractStep, hh, ho, ht, hu, hv]
    | seeked w h ctxOk encodeOk dataUrl =>
        right
        simp only [extractStep, hh, if_true]
        by_cases hz : w = 0 ∨ h = 0
        · simp [hz, cleanup]
        · by_cases hctx : ctxOk
          · by_cases henc : encodeOk
            · simp [hz, hctx, henc, cleanup]
            · simp [hz, hctx, henc, cleanup]
          · simp [hz, hctx, cleanup]
    | errored =>
        right
        simp [extractStep, hh, cleanup]
    | timeoutFired =>
        right
        simp [extractStep, ht, cleanup]
  · have hfix : extractStep s e = s := by
      cases e <;> simp [extractStep, hh, ht]
    rw [hfix]
    exact Or.inr ⟨⟨o, ho⟩, ht, hu, hv, hh, hok⟩

theorem extInv_run (b c : Bool) (events : List MediaEvent) :
    ExtInv (runExtract b c events) := by
  have step_all : ∀ (l : List MediaEvent) (s : ExtState),
      ExtInv s → ExtInv (l.foldl extractStep s) := by
    intro l
    induction l with
    | nil => intro s hs; exact hs
    | cons e l ih => intro s hs; exact ih _ (extInv_step s e hs)
  exact step_all events _ (extInv_init b c)

/-- C5 -/
theorem extract_timeout_path (b c : Bool) (events : List MediaEvent) :
    timeoutDelayMs = 15000 ∧
    ((runExtract b c events).outcome = none →
      (runExtract b c (events ++ [MediaEvent.timeoutFired])).outcome
          = some (.error timeoutMsg) ∧
      allReleased (runExtract b c (events ++ [MediaEvent.timeoutFired]))) ∧
    (∀ o, (runExtract b c events).outcome = some o →
      allReleased (runExtract b c events)) := by
  refine ⟨rfl, ?_, ?_⟩
  · intro hnone
    rcases extInv_run b c events with ⟨ho, ht, hu, hv, hh⟩ | ⟨⟨o, ho⟩, _⟩
    · have happ : runExtract b c (events ++ [MediaEvent.timeoutFired])
          = extractStep (runExtract b c events) .timeoutFired := by
        simp [runExtract, List.foldl_append]
      rw [happ]
      simp [extractStep, ht, cleanup, allReleased]
    · rw [hnone] at ho; cases ho
  · intro o ho
    rcases extInv_run b c events with ⟨hn, _⟩ | ⟨_, ht, hu, hv, _⟩
    · rw [ho] at hn; cases hn
    · exact ⟨ht, hu, hv⟩

/-- C5 witness -/
theorem extract_timeout_path_witness :
    (runExtract true true []).outcome = none ∧
    (runExtract true true ([] ++ [MediaEvent.timeoutFired])).outcome
        = some (.error timeoutMsg) ∧
    allReleased (runExtract true true ([] ++ [MediaEvent.timeoutFired])) := by
  have h := (extract_timeout_path true true []).2.1 (by decide)
  exact ⟨by decide, h.1, h.2⟩

theorem bareInv_init (b c : Bool) : BareInv (bareInit b c) := by
  cases b <;> cases c <;> simp [BareInv, bareInit]

theorem bareInv_step (s : BareState) (e : MediaEvent) (hs : BareInv s) :
    BareInv (bareStep s e) := by
  cases e with
  | loadeddata d => exact hs
  | seeked w h ctxOk encodeOk dataUrl =>
      by_cases hn : s.outcome.isNone
      · simp only [bareStep, hn, if_true]
        by_cases hctx : ctxOk
        · by_cases henc : encodeOk
          · simp [hctx, henc, BareInv]
          · intro r hr
            rw [Option.isNone_iff_eq_none] at hn
            simp [hctx, henc, hn] at hr
        · intro r hr
          simp [hctx] at hr
      · simpa [bareStep, hn] using hs
  | errored =>
      by_cases hn : s.outcome.isNone
      · intro r hr
        simp [bareStep, hn] at hr
      · simpa [bareStep, hn] using hs
  | timeoutFired => exact hs

theorem bareInv_run (b c : Bool) (events : List MediaEvent) :
    BareInv (runBare b c events) := by
  have step_all : ∀ (l : List MediaEvent) (s : BareState),
      BareInv s → BareInv (l.foldl bareStep s) := by
    intro l
    induction l with
    | nil => intro s hs; exact hs
    | cons e l ih => intro s hs; exact ih _ (bareInv_step s e hs)
  exact step_all events _ (bareInv_init b c)

/-- C10 -/
theorem extract_mime_jpeg (b c : Bool) (events : List MediaEvent) (r : FrameResult) :
    ((runExtract b c events).outcome = some (.ok r) →
      r.mimeType = "image/jpeg" ∧
      (runExtract b c events).lastEncode = some ("image/jpeg", 0.85)) ∧
    ((runBare b c events).outcome = some (.ok r) →
      r.mimeType = "image/jpeg" ∧
      (runBare b c events).lastEncode = some ("image/jpeg", 0.85)) := by
  constructor
  · intro hr
    rcases extInv_run b c events with ⟨hn, _⟩ | ⟨_, _, _, _, _, hok⟩
    · rw [hr] at hn; cases hn
    · exact hok r hr
  · intro hr
    exact bareInv_run b c events r hr

/-- C10 witness -/
theorem extract_mime_jpeg_witness :
    (runExtract true true [MediaEvent.seeked 2 2 true true "a,b"]).outcome
      = some (.ok { base64 := "b", mimeType := "image/jpeg", width := 2, height := 2 }) ∧
    ({ base64 := "b", mimeType := "image/jpeg", width := 2, height := 2 }
        : FrameResult).mimeType = "image/jpeg" ∧
    (runExtract true true [MediaEvent.seeked 2 2 true true "a,b"]).lastEncode
      = some ("image/jpeg", 0.85) := by
  have h := (extract_mime_jpeg true true [MediaEvent.seeked 2 2 true true "a,b"]
      { base64 := "b", mimeType := "image/jpeg", width := 2, height := 2 }).1 (by decide)
  exact ⟨by decide, h.1, h.2⟩

/-- C9 counterexample: on a video reporting zero dimensions the bare
variant resolves with a 0×0 frame while the guarded variant rejects. -/
theorem extract_variants_not_equivalent : ¬ extractVariantsEquivalent := by
  intro hEq
  have h := hEq true true [MediaEvent.seeked 0 0 true true "data:,"]
  revert h
  decide

/-- C9 amended -/
theorem extract_variants_agree_on_success (d : Option ℚ) (w h : ℕ) (du : String)
    (hw : 0 < w) (hh : 0 < h) :
    (runBare true true [.loadeddata d, .seeked w h true true du]).outcome =
      (runExtract true true [.loadeddata d, .seeked w h true true du]).outcome ∧
    (runExtract true true [.loadeddata d, .seeked w h true true du]).outcome =
      some (.ok { base64 := base64Of du, mimeType := "image/jpeg",
                  width := (resizeDims w h).1, height := (resizeDims w h).2 }) := by
  have hz : ¬ (w = 0 ∨ h = 0) := by omega
  constructor <;>
    simp [runBare, runExtract, bareStep, extractStep, bareInit, extractInit, cleanup, hz]

/-- C9 amended witness -/
theorem extract_variants_agree_on_success_witness :
    (0 : ℕ) < 1 ∧
    (runBare true true [.loadeddata none, .seeked 1 1 true true "p,q"]).outcome =
      (runExtract true true [.loadeddata none, .seeked 1 1 true true "p,q"]).outcome :=
  ⟨by decide, (extract_variants_agree_on_success none 1 1 "p,q" (by decide) (by decide)).1⟩

/-- C4 counterexample: `handleReset` contains no `URL.revokeObjectURL`
call, so the preview URL held at reset time stays live. -/
theorem reset_does_not_release : ¬ resetReleasesHeldUrls := by
  intro hclaim
  have h := (hclaim resetCounterState).2.2.2.2.1 0 rfl
  exact h (by decide)

/-- C4 amended -/
theorem handle_reset_spec (s : AppState) :
    (handleReset s).processingState.status = .idle ∧
    (handleReset s).extractedFrame = none ∧
    (handleReset s).generatedVideoUrl = none ∧
    (handleReset s).videoPreviewUrl = none ∧
    (handleReset s).videoFile = none ∧
    (handleReset s).prompt = "" ∧
    (handleReset s).fileInputValue = "" ∧
    (handleReset s).liveObjectUrls = s.liveObjectUrls := by
  simp [handleReset]

theorem pollLoop_trace_mem (poll : ℕ → String → Except String Operation) (nm : String) :
    ∀ (fuel : ℕ) (op : Operation) (i : ℕ) (x : String),
      x ∈ (pollLoop poll nm fuel op i).2 → x = nm := by
  intro fuel
  induction fuel with
  | zero =>
      intro op i x hx
      by_cases hd : op.done <;> simp [pollLoop, hd] at hx
  | succ f ih =>
      intro op i x hx
      by_cases hd : op.done
      · simp [pollLoop, hd] at hx
      · cases hp : poll i nm with
        | ok next =>
            simp [pollLoop, hd, hp] at hx
            rcases hx with hx | hx
            · exact hx
            · exact ih next (i + 1) x hx
        | error e =>
            by_cases h4 : strIncludes e "404"
            · simp [pollLoop, hd, hp, h4] at hx
              exact hx
            · simp [pollLoop, hd, hp, h4] at hx
              exact hx

theorem rawGenerate_trace_eq (env : GenEnv) (apiKey b64 mt pd ar : String)
    (fuel : ℕ) (operation : Operation) (nm : String)
    (hsub : env.submit (mkSubmission b64 mt pd ar) = .ok operation)
    (hname : operation.name = some nm) :
    (rawGenerate env apiKey b64 mt pd ar fuel).2
      = (pollLoop env.poll nm fuel operation 0).2 := by
  simp only [rawGenerate, hsub, hname]
  rcases hpl : pollLoop env.poll nm fuel operation 0 with ⟨res, tr⟩
  cases res with
  | fuelOut => rfl
  | failed e => rfl
  | finished fin =>
      cases hv : fin.videoUri with
      | none => simp [hv]
      | some uri =>
          by_cases hf : (env.fetchAt (uri ++ "&key=" ++ apiKey)).ok <;> simp [hv, hf]

/-- C2 -/
theorem poll_uses_captured_identifier (env : GenEnv)
    (apiKey b64 mt pd ar : String) (fuel : ℕ)
    (operation : Operation) (nm x : String)
    (hsub : env.submit (mkSubmission b64 mt pd ar) = .ok operation)
    (hname : operation.name = some nm)
    (hx : x ∈ (rawGenerate env apiKey b64 mt pd ar fuel).2) :
    x = nm := by
  rw [rawGenerate_trace_eq env apiKey b64 mt pd ar fuel operation nm hsub hname] at hx
  exact pollLoop_trace_mem env.poll nm fuel operation 0 x hx

/-- C2 witness -/
theorem poll_uses_captured_identifier_witness :
    "op-1" ∈ (rawGenerate envW "k" "b" "m" "p" "16:9" 1).2 ∧ "op-1" = "op-1" :=
  ⟨by decide,
   poll_uses_captured_identifier envW "k" "b" "m" "p" "16:9" 1 opW "op-1" "op-1"
     rfl rfl (by decide)⟩

/-- C3 -/
theorem poll_notfound_aborts (poll : ℕ → String → Except String Operation)
    (opName : String) (fuel : ℕ) (op : Operation) (i : ℕ) (e : String)
    (hdone : op.done = false) (hpoll : poll i opName = .error e)
    (h404 : strIncludes e "404" = true) :
    pollLoop poll opName (fuel + 1) op i = (.failed operationLostMsg, [opName]) ∧
    translateError operationLostMsg = operationLostMsg := by
  constructor
  · simp [pollLoop, hdone, hpoll, h404]
  · decide

/-- C3 witness -/
theorem poll_notfound_aborts_witness :
    opW.done = false ∧ poll404 0 "op-1" = .error "HTTP 404" ∧
    strIncludes "HTTP 404" "404" = true ∧
    pollLoop poll404 "op-1" (4 + 1) opW 0 = (.failed operationLostMsg, ["op-1"]) :=
  ⟨rfl, rfl, by decide,
   (poll_notfound_aborts poll404 "op-1" 4 opW 0 "HTTP 404" rfl rfl (by decide)).1⟩

/-- C7 counterexample: a 404-class message without the word `entity`
passes through unchanged instead of mapping to the missing-model
message. -/
theorem translation_not_as_claimed : ¬ translationAsClaimed := by
  intro hclaim
  have h := (hclaim "Erro 404 do servidor").1 (by decide)
  revert h
  decide

/-- C7 amended -/
theorem translate_error_classification (msg : String) (env : GenEnv)
    (apiKey b64 mt pd ar : String) (fuel : ℕ) (e : String)
    (hk : env.apiKey = some apiKey)
    (he : (rawGenerate env apiKey b64 mt pd ar fuel).1 = .error e) :
    (generateCleanVideo env b64 mt pd ar fuel).1
        = .error (translateError (if e = "" then unknownErrorMsg else e)) ∧
    ((strIncludes msg "404" && strIncludes msg "entity") = true →
      translateError msg = modelNotFoundMsg) ∧
    ((strIncludes msg "404" && strIncludes msg "entity") = false →
      strIncludes msg "429" = true → translateError msg = quotaMsg) ∧
    ((strIncludes msg "404" && strIncludes msg "entity") = false →
      strIncludes msg "429" = false → translateError msg = msg) := by
  refine ⟨?_, ?_, ?_, ?_⟩
  · simp only [generateCleanVideo, hk, he]
  · intro hb
    simp [translateError, hb]
  · intro hb h9
    simp [translateError, hb, h9]
  · intro hb h9
    simp [translateError, hb, h9]

/-- C7 amended witness -/
theorem translate_error_classification_witness :
    envErr.apiKey = some "k" ∧
    (rawGenerate envErr "k" "b" "m" "p" "16:9" 0).1 = .error "boom 429" ∧
    (generateCleanVideo envErr "b" "m" "p" "16:9" 0).1
      = .error (translateError (if "boom 429" = "" then unknownErrorMsg else "boom 429")) :=
  ⟨rfl, by decide,
   (translate_error_classification "x" envErr "k" "b" "m" "p" "16:9" 0 "boom 429"
      rfl (by decide)).1⟩

/-- C8 -/
theorem aspect_ratio_class (w h : ℕ) (b64 mt pd : String) :
    (ratioFor w h = "16:9" ↔ h ≤ w) ∧
    (ratioFor w h = "9:16" ↔ w < h) ∧
    resizeDims 4000 2000 = (1024, 512) ∧
    ratioFor 1024 512 = "16:9" ∧
    (mkSubmission b64 mt pd (ratioFor 1024 512)).aspectRatio = "16:9" := by
  refine ⟨?_, ?_, ?_, by decide, by simp [mkSubmission, ratioFor]⟩
  · simp only [ratioFor]
    split_ifs with hge
    · exact iff_of_true rfl hge
    · exact iff_of_false (by decide) (by omega)
  · simp only [ratioFor]
    split_ifs with hge
    · exact iff_of_false (by decide) (by omega)
    · exact iff_of_true rfl (by omega)
  · rw [resizeDims_of_big (Or.inl (by decide))]
    decide
